import Mathlib

/-!
Verification of the PickBetter product-cache service
(`app/services/product_service.py` and `app/models/product.py`).

The embedding models:
  * the `Product` / `NormalizedNutrition` rows (nullable columns as
    `Option String` over a finite set of field names, timestamps as `Int`
    on an abstract time axis);
  * the database session as a list of rows plus a persisted snapshot and a
    commit counter (`_add_product` / `_update_product` each end in
    `self.db.commit()`);
  * `_is_fresh`, `get_by_barcode`, `_create_or_update_product`,
    `_add_product`, `_update_product`, `seed_from_openfoodfacts` and
    `search_products` as pure state-passing functions, parameterised over
    the external OpenFoodFacts client (`get_product`, `parse_product`)
    which lives outside the service module.

Pydantic `dict(exclude_unset=True)` semantics are modelled by payload
fields of type `Option (Option String)`: `none` is an unset field,
`some none` a field explicitly set to null, `some (some v)` a field set
to a value.  SQLModel's `onupdate=datetime.utcnow` on `last_updated` is
modelled by the update path writing the current time on commit.
-/

namespace PickBetter

/-- The column names of `ProductBase` other than `barcode`
(`src/app/models/product.py`, class `ProductBase`).  `barcode` is kept as
a separate, non-null component of each row because it is the natural key. -/
inductive PField where
  | name | brand | category
  | package_size | serving_size | servings_per_package
  | image_url | ingredients_text | ingredients_list | allergens
  | is_vegan | is_vegetarian | is_gluten_free
  | data_source | data_quality_score | raw_nutrition_data
deriving DecidableEq, Fintype

/-- The column names of `NormalizedNutritionBase`
(`src/app/models/product.py`, class `NormalizedNutritionBase`). -/
inductive NField where
  | calories_100g | carbs_100g | sugar_100g | fiber_100g | protein_100g
  | fat_100g | saturated_fat_100g | trans_fat_100g | sodium_100g
  | salt_100g | general_health_score | nutri_grade
deriving DecidableEq, Fintype

/-- A stored `normalized_nutrition` row: primary key, foreign key to the
product, and the nullable nutrient columns. -/
structure NutritionRow where
  id : Nat
  product_id : Nat
  nfields : NField → Option String

/-- A stored `products` row: primary key, unique barcode, the remaining
`ProductBase` columns, the `last_updated` timestamp, and the one-to-one
`normalized_nutrition` sub-row loaded with it (`selectinload`). -/
structure ProductRow where
  id : Nat
  barcode : String
  fields : PField → Option String
  last_updated : Option Int
  nutrition : Option NutritionRow

/-- The `NormalizedNutritionBase` part of a `ProductCreate` payload:
for each column, `none` if the pydantic field is unset, `some v` if it was
set to `v` (which may itself be null). -/
structure NutritionPayload where
  nset : NField → Option (Option String)

/-- A `ProductCreate` payload as produced by `parse_product`: the required
`barcode`, the remaining `ProductBase` fields with set/unset tracking, and
the optional nutrition sub-payload. -/
structure ProductCreate where
  barcode : String
  pset : PField → Option (Option String)
  normalized_nutrition : Option NutritionPayload

/-- Column defaults used when a `Product` row is constructed from a full
`dict()`: `data_source` defaults to `"openfoodfacts"`, every other
unset column is null. -/
def defaultPField : PField → Option String
  | .data_source => some "openfoodfacts"
  | _ => none

/-- The database session: the rows visible to the session, the id counters
of the two tables, the rows as last committed, and how many commits the
session has performed. -/
structure Session where
  rows : List ProductRow
  nextId : Nat
  nextNutId : Nat
  persisted : List ProductRow
  commits : Nat

/-- `self.db.commit()`: persist the session's rows and count the commit. -/
def commitDb (s : Session) : Session :=
  { s with persisted := s.rows, commits := s.commits + 1 }

/-- `ProductService._is_fresh` (`product_service.py` lines 290–296):
false when `last_updated` is absent, otherwise
`(datetime.utcnow() - last_updated) < timedelta(days=cache_days)`.
Times and the TTL are measured on one abstract integer time axis, so the
TTL argument is the length of the freshness window. -/
def isFresh (now : Int) (lastUpdated : Option Int) (ttl : Int) : Bool :=
  match lastUpdated with
  | none => false
  | some t => decide (now - t < ttl)

/-- `ProductService._get_from_database`: first row whose `barcode` column
equals the argument. -/
def getFromDatabase (s : Session) (barcode : String) : Option ProductRow :=
  s.rows.find? (fun r => r.barcode == barcode)

/-- `new_data.dict(exclude={"normalized_nutrition"}, exclude_unset=True)`
followed by `setattr` on each item: a set field overwrites the column, an
unset field leaves it untouched. -/
def mergeFields (old : PField → Option String)
    (p : PField → Option (Option String)) : PField → Option String :=
  fun f => match p f with
    | some x => x
    | none => old f

/-- `product.dict(exclude={"normalized_nutrition"})` (no `exclude_unset`):
a set field keeps its value, an unset field takes the column default. -/
def fullDict (p : PField → Option (Option String)) : PField → Option String :=
  fun f => match p f with
    | some x => x
    | none => defaultPField f

/-- `normalized_nutrition.dict()`: every nutrition column defaults to
null, so an unset field comes out null. -/
def nutFullDict (np : NutritionPayload) : NField → Option String :=
  fun f => (np.nset f).join

/-- `new_data.normalized_nutrition.dict(exclude_unset=True)` followed by
`setattr` on the existing nutrition row: set fields overwrite, unset
fields stay. -/
def mergeNFields (old : NField → Option String) (np : NutritionPayload) :
    NField → Option String :=
  fun f => match np.nset f with
    | some x => x
    | none => old f

/-- `ProductService._add_product` (lines 227–245): build a new `Product`
row from the full payload dict, attach a new `NormalizedNutrition` row
when the payload has one, append it, and commit.  `last_updated` takes
its `default_factory=datetime.utcnow` value. -/
def addProduct (now : Int) (s : Session) (p : ProductCreate) :
    ProductRow × Session :=
  let row : ProductRow :=
    { id := s.nextId
      barcode := p.barcode
      fields := fullDict p.pset
      last_updated := some now
      nutrition := p.normalized_nutrition.map (fun np =>
        { id := s.nextNutId, product_id := s.nextId, nfields := nutFullDict np }) }
  let s' : Session :=
    { s with
      rows := s.rows ++ [row]
      nextId := s.nextId + 1
      nextNutId := if p.normalized_nutrition.isSome then s.nextNutId + 1 else s.nextNutId }
  (row, commitDb s')

/-- The row produced by `ProductService._update_product` (lines 247–275)
for `existing`: set-fields of the payload overwrite columns, the nutrition
sub-row is merged field-by-field when both sides have one and created from
the full dict when only the payload does, and `last_updated` is written by
the `onupdate=datetime.utcnow` column hook at commit time. -/
def updateRow (now : Int) (existing : ProductRow) (p : ProductCreate)
    (freshNutId : Nat) : ProductRow :=
  { existing with
    barcode := p.barcode
    fields := mergeFields existing.fields p.pset
    last_updated := some now
    nutrition :=
      match p.normalized_nutrition with
      | none => existing.nutrition
      | some np =>
        match existing.nutrition with
        | some n => some { n with nfields := mergeNFields n.nfields np }
        | none => some { id := freshNutId, product_id := existing.id,
                         nfields := nutFullDict np } }

/-- `ProductService._update_product`: update `existing` in place (same
primary key, no new `products` row) and commit. -/
def updateProduct (now : Int) (s : Session) (existing : ProductRow)
    (p : ProductCreate) : ProductRow × Session :=
  let row := updateRow now existing p s.nextNutId
  let createsNut := p.normalized_nutrition.isSome && existing.nutrition.isNone
  let s' : Session :=
    { s with
      rows := s.rows.map (fun r => if r.id = existing.id then row else r)
      nextNutId := if createsNut then s.nextNutId + 1 else s.nextNutId }
  (row, commitDb s')

/-- `ProductService._create_or_update_product` (lines 198–220) after the
payload has been parsed: look the parsed barcode up and either update the
existing row or insert a new one. -/
def createOrUpdateProduct (now : Int) (s : Session) (p : ProductCreate) :
    ProductRow × Session :=
  match getFromDatabase s p.barcode with
  | some existing => updateProduct now s existing p
  | none => addProduct now s p

/-- The result of one `get_by_barcode` call: the value returned to the
caller, the session afterwards, and whether the OpenFoodFacts client's
`get_product` was invoked. -/
structure GetResult where
  resp : Option ProductRow
  session : Session
  clientCalled : Bool

/-- `ProductService.get_by_barcode` (lines 31–64), parameterised over the
external client: `client` is `OpenFoodFactsClient.get_product` and
`parse` is `parse_product` (module `app/services/openfoodfacts`, outside
the service).  Unless `force_refresh` is set, a fresh cached row is
returned without touching the client; otherwise `get_product` is called,
`None` propagates as not-found, and any data is parsed and upserted. -/
def getByBarcode {Raw : Type} (now ttl : Int) (client : String → Option Raw)
    (parse : Raw → ProductCreate) (s : Session) (barcode : String)
    (forceRefresh : Bool) : GetResult :=
  let cached : Option ProductRow :=
    if !forceRefresh then
      match getFromDatabase s barcode with
      | some product =>
        if isFresh now product.last_updated ttl then some product else none
      | none => none
    else none
  match cached with
  | some product => { resp := some product, session := s, clientCalled := false }
  | none =>
    match client barcode with
    | none => { resp := none, session := s, clientCalled := true }
    | some raw =>
      let rs := createOrUpdateProduct now s (parse raw)
      { resp := some rs.1, session := rs.2, clientCalled := true }

/-- One raw record of the batch returned by the client's
`search_products` during seeding: the two dictionary entries the service
reads directly (`product_data.get("code")`,
`product_data.get("product_name")`, absent keys give `None`), and the
outcome of handing the record to `parse_product`, which may raise
(modelled as `Except.error`), triggering the per-record `except` branch. -/
structure SeedRaw where
  code : Option String
  product_name : Option String
  parsed : Except String ProductCreate

/-- Python truthiness of an optional string: `None` and `""` are falsy. -/
def truthy : Option String → Bool
  | none => false
  | some s => !(s == "")

/-- The counters accumulated by `seed_from_openfoodfacts`. -/
structure SeedCounts where
  added : Nat
  updated : Nat
  skipped : Nat
  errors : Nat

/-- The dictionary returned by `seed_from_openfoodfacts`. -/
structure SeedReport where
  total_processed : Nat
  added : Nat
  updated : Nat
  skipped : Nat
  errors : Nat

/-- One iteration of the seeding loop (`product_service.py` lines
153–177): skip records lacking a truthy `code` or `product_name`, look
the raw `code` up, parse (a parse failure lands in the `except` branch,
which only counts the error and moves on), then update or add. -/
def seedStep (now : Int) (st : Session × SeedCounts) (r : SeedRaw) :
    Session × SeedCounts :=
  let (s, c) := st
  if !truthy r.code || !truthy r.product_name then
    (s, { c with skipped := c.skipped + 1 })
  else
    match getFromDatabase s (r.code.getD "") with
    | some existing =>
      match r.parsed with
      | .error _ => (s, { c with errors := c.errors + 1 })
      | .ok p =>
        ((updateProduct now s existing p).2, { c with updated := c.updated + 1 })
    | none =>
      match r.parsed with
      | .error _ => (s, { c with errors := c.errors + 1 })
      | .ok p =>
        ((addProduct now s p).2, { c with added := c.added + 1 })

/-- `ProductService.seed_from_openfoodfacts` (lines 128–188) applied to
the batch the external client returned: fold the per-record step over the
batch, commit once more at the end, and report the counters with
`total_processed = len(products)`. -/
def seedFromOpenFoodFacts (now : Int) (s : Session) (records : List SeedRaw) :
    SeedReport × Session :=
  let sc := records.foldl (seedStep now)
    (s, { added := 0, updated := 0, skipped := 0, errors := 0 })
  ({ total_processed := records.length, added := sc.2.added,
     updated := sc.2.updated, skipped := sc.2.skipped, errors := sc.2.errors },
   commitDb sc.1)

/-- Is `needle` a contiguous run of `hay`, starting at the head? -/
def charsLead : List Char → List Char → Bool
  | [], _ => true
  | _ :: _, [] => false
  | a :: as, b :: bs => a == b && charsLead as bs

/-- Case-insensitive substring test: SQL `column ILIKE '%pat%'`. -/
def ilikeSub (column pat : String) : Bool :=
  (List.range (column.toLower.data.length + 1)).any fun i =>
    charsLead pat.toLower.data (column.toLower.data.drop i)

/-- A nullable column matched against `ILIKE '%pat%'`: SQL NULL never
matches. -/
def ilikeCol (column : Option String) (pat : String) : Bool :=
  match column with
  | none => false
  | some s => ilikeSub s pat

/-- The WHERE clause built by `search_products` (lines 91–104): a query
string matches name, brand or category; a category filter matches the
category column; both conditions AND together when both are given. -/
def searchMatches (q category : Option String) (r : ProductRow) : Bool :=
  (match q with
   | none => true
   | some qs =>
     ilikeCol (r.fields PField.name) qs || ilikeCol (r.fields PField.brand) qs ||
       ilikeCol (r.fields PField.category) qs) &&
  (match category with
   | none => true
   | some cs => ilikeCol (r.fields PField.category) cs)

/-- The dictionary `search_products` is written to return. -/
structure SearchPage where
  items : List ProductRow
  total : Nat
  page : Nat
  page_size : Nat
  total_pages : Nat

/-- `ProductService.search_products` (lines 66–126): filter, paginate with
`offset = (page - 1) * page_size` and `limit = page_size`, then compute
the total count — but line 118 reads the name `func`, which the module
never imports (`from sqlalchemy import select, update, delete, and_, or_`),
so every call raises `NameError` there instead of returning. -/
def searchProducts (s : Session) (q category : Option String)
    (page pageSize : Nat) : Except String SearchPage :=
  let matching := s.rows.filter (searchMatches q category)
  let _items := (matching.drop ((page - 1) * pageSize)).take pageSize
  Except.error "NameError: name func is not defined"

/-! Concrete rows, sessions and payloads: closed inputs on which the
development is evaluated. -/

/-- A row whose nullable columns are all null. -/
def demoFields : PField → Option String := fun _ => none

/-- A minimal parsed payload for barcode `"111"`. -/
def demoCreate : ProductCreate :=
  { barcode := "111", pset := fun _ => none, normalized_nutrition := none }

/-- A locally stored row for barcode `"111"`, fresh at time `0`. -/
def freshRow : ProductRow :=
  { id := 1, barcode := "111", fields := demoFields,
    last_updated := some 0, nutrition := none }

/-- A session holding exactly `freshRow`. -/
def freshSession : Session :=
  { rows := [freshRow], nextId := 2, nextNutId := 1,
    persisted := [freshRow], commits := 0 }

/-- A locally stored row for barcode `"222"`, stale at time `0` for every
TTL up to `100`. -/
def staleRow : ProductRow :=
  { id := 1, barcode := "222", fields := demoFields,
    last_updated := some (-100), nutrition := none }

/-- A session holding exactly `staleRow`. -/
def staleSession : Session :=
  { rows := [staleRow], nextId := 2, nextNutId := 1,
    persisted := [staleRow], commits := 0 }

/-- A session with no rows. -/
def emptySession : Session :=
  { rows := [], nextId := 1, nextNutId := 1, persisted := [], commits := 0 }

/-- A well-formed raw seed record for barcode `b`, parsing cleanly. -/
def seedRec (b : String) : SeedRaw :=
  { code := some b, product_name := some ("P" ++ b),
    parsed := .ok { barcode := b, pset := fun _ => none,
                    normalized_nutrition := none } }

/-- A raw seed record lacking its `code` entry. -/
def noCodeRec : SeedRaw :=
  { code := none, product_name := some "P3",
    parsed := .ok { barcode := "1003", pset := fun _ => none,
                    normalized_nutrition := none } }

/-- A raw seed record whose processing raises. -/
def failRec : SeedRaw :=
  { code := some "9999", product_name := some "P9",
    parsed := .error "parse failure" }

/-- A batch of five records in which exactly the third lacks a barcode. -/
def demoBatch : List SeedRaw :=
  [seedRec "1001", seedRec "1002", noCodeRec, seedRec "1004", seedRec "1005"]

/-- All counters zero. -/
def zeroCounts : SeedCounts := { added := 0, updated := 0, skipped := 0, errors := 0 }

/-! Theorems settling the claims, with shared helper lemmas. -/

/-- C3: `_is_fresh` returns false when `last_updated` is absent, and
otherwise is true exactly when `now - last_updated` lies strictly below
the TTL; a record whose age equals the TTL (`now - t = d`, i.e.
`t = now - d`) is stale. -/
theorem isFresh_characterisation (now t d : Int) :
    isFresh now none d = false ∧
    (isFresh now (some t) d = true ↔ now - t < d) ∧
    isFresh now (some (now - d)) d = false := by
  refine ⟨rfl, by simp [isFresh], ?_⟩
  simp only [isFresh, decide_eq_false_iff_not]
  omega

/-- C8: every call of `search_products` reads the name `func`, which the
module never imports, so it raises `NameError` at the count query instead
of returning the pagination dictionary with
`total_pages = ceil(total / page_size)`. -/
theorem searchProducts_always_raises (s : Session) (q category : Option String)
    (page pageSize : Nat) :
    searchProducts s q category page pageSize =
      Except.error "NameError: name func is not defined" := rfl

/-- C1: `get_by_barcode` invokes the external client exactly when
`force_refresh` is set, no local row with the barcode exists, or the
local row is stale; and with `force_refresh=false` and a fresh local row,
that row is returned with the session untouched and no client call. -/
theorem getByBarcode_client_invocation {Raw : Type} (now ttl : Int)
    (client : String → Option Raw) (parse : Raw → ProductCreate)
    (s : Session) (barcode : String) (fr : Bool) :
    ((getByBarcode now ttl client parse s barcode fr).clientCalled =
      (fr || match getFromDatabase s barcode with
             | none => true
             | some r => !isFresh now r.last_updated ttl)) ∧
    (fr = false → ∀ r, getFromDatabase s barcode = some r →
      isFresh now r.last_updated ttl = true →
      getByBarcode now ttl client parse s barcode fr =
        { resp := some r, session := s, clientCalled := false }) := by
  constructor
  · cases fr with
    | true =>
      unfold getByBarcode
      cases hc : client barcode <;> simp [hc]
    | false =>
      unfold getByBarcode
      rcases h : getFromDatabase s barcode with _ | r
      · simp only [h, Bool.not_false, if_true, Bool.false_or]
        cases hc : client barcode <;> simp [hc]
      · by_cases hf : isFresh now r.last_updated ttl
        · simp [h, hf]
        · simp only [Bool.not_eq_true] at hf
          simp only [h, hf, Bool.not_false, if_true, Bool.false_or, if_false]
          cases hc : client barcode <;> simp [hc, hf]
  · intro hfr r h hf
    subst hfr
    unfold getByBarcode
    simp [h, hf]

/-- C2: whenever `get_by_barcode` reaches the external client and the
client reports no record, the call returns `None` and leaves the session
untouched — also when a stale local row for the barcode is stored. -/
theorem getByBarcode_notFound_wins {Raw : Type} (now ttl : Int)
    (client : String → Option Raw) (parse : Raw → ProductCreate)
    (s : Session) (barcode : String) (fr : Bool)
    (hnone : client barcode = none)
    (hcall : (getByBarcode now ttl client parse s barcode fr).clientCalled = true) :
    (getByBarcode now ttl client parse s barcode fr).resp = none ∧
    (getByBarcode now ttl client parse s barcode fr).session = s := by
  cases fr with
  | true =>
    unfold getByBarcode
    simp [hnone]
  | false =>
    unfold getByBarcode
    rcases h : getFromDatabase s barcode with _ | r
    · simp [h, hnone]
    · by_cases hf : isFresh now r.last_updated ttl
      · unfold getByBarcode at hcall
        simp [h, hf] at hcall
      · simp only [Bool.not_eq_true] at hf
        simp [h, hf, hnone]

/-- C2 applied to a concrete stale record: the external not-found answer
wins over the stale stored row for barcode `"222"`. -/
theorem getByBarcode_notFound_wins_witness :
    (getByBarcode 0 30 (fun _ : String => (none : Option Unit))
      (fun _ => demoCreate) staleSession "222" false).resp = none ∧
    (getByBarcode 0 30 (fun _ : String => (none : Option Unit))
      (fun _ => demoCreate) staleSession "222" false).session = staleSession :=
  getByBarcode_notFound_wins 0 30 (fun _ => none) (fun _ => demoCreate)
    staleSession "222" false rfl rfl

/-- C9: `_update_product` writes the current time into `last_updated`
(the column's `onupdate` hook fires at its commit), so whenever the clock
has advanced past the stored timestamp, the refreshed row's
`last_updated` is strictly greater than its previous value. -/
theorem updateProduct_advances_lastUpdated (now : Int) (s : Session)
    (existing : ProductRow) (p : ProductCreate) (t : Int)
    (_hprev : existing.last_updated = some t) (hclock : t < now) :
    (updateProduct now s existing p).1.last_updated = some now ∧
    ∀ u, (updateProduct now s existing p).1.last_updated = some u → t < u := by
  refine ⟨rfl, ?_⟩
  intro u hu
  have h2 : some now = some u := hu
  injection h2 with h3
  omega

/-- C9 applied to a concrete row: refreshing `freshRow` (stored at time
`0`) at time `1` moves `last_updated` to `1 > 0`. -/
theorem updateProduct_advances_lastUpdated_witness :
    (updateProduct 1 freshSession freshRow demoCreate).1.last_updated = some 1 :=
  (updateProduct_advances_lastUpdated 1 freshSession freshRow demoCreate 0
    rfl (by decide)).1

/-- Each iteration of the seeding loop increments exactly one of the four
counters. -/
theorem seedStep_sum (now : Int) (st : Session × SeedCounts) (r : SeedRaw) :
    (seedStep now st r).2.added + (seedStep now st r).2.updated +
      (seedStep now st r).2.skipped + (seedStep now st r).2.errors =
    st.2.added + st.2.updated + st.2.skipped + st.2.errors + 1 := by
  obtain ⟨s, c⟩ := st
  unfold seedStep
  dsimp only
  split
  · dsimp only; omega
  · split <;> split <;> dsimp only <;> omega

/-- Over the whole loop, the counters grow by the number of records. -/
theorem seedLoop_sum (now : Int) (records : List SeedRaw) :
    ∀ st : Session × SeedCounts,
      (records.foldl (seedStep now) st).2.added +
        (records.foldl (seedStep now) st).2.updated +
        (records.foldl (seedStep now) st).2.skipped +
        (records.foldl (seedStep now) st).2.errors =
      st.2.added + st.2.updated + st.2.skipped + st.2.errors + records.length := by
  induction records with
  | nil => intro st; simp
  | cons r rs ih =>
    intro st
    simp only [List.foldl_cons, List.length_cons]
    have h1 := ih (seedStep now st r)
    have h2 := seedStep_sum now st r
    omega

/-- C10: every fetched record increments exactly one counter, so the
report of a seed call satisfies
`added + updated + skipped + errors = total_processed`, and
`total_processed` is the number of records the external client returned. -/
theorem seed_counters_partition (now : Int) (s : Session) (records : List SeedRaw) :
    (seedFromOpenFoodFacts now s records).1.added +
      (seedFromOpenFoodFacts now s records).1.updated +
      (seedFromOpenFoodFacts now s records).1.skipped +
      (seedFromOpenFoodFacts now s records).1.errors = records.length ∧
    (seedFromOpenFoodFacts now s records).1.total_processed = records.length := by
  refine ⟨?_, rfl⟩
  have h := seedLoop_sum now records
    (s, { added := 0, updated := 0, skipped := 0, errors := 0 })
  unfold seedFromOpenFoodFacts
  dsimp only
  dsimp only at h
  omega

/-- C6: a seeded record lacking a truthy barcode or display name only
increments `skipped` and writes nothing; a record whose processing raises
only increments `errors` and the loop moves on; on the five-record batch
whose third record lacks a barcode, seeding an empty database reports
`total_processed = 5`, `skipped = 1`, `errors = 0` and stores the other
four records in order. -/
theorem seed_skip_and_error_handling :
    ((seedFromOpenFoodFacts 0 emptySession demoBatch).1 =
      { total_processed := 5, added := 4, updated := 0, skipped := 1, errors := 0 }) ∧
    ((seedFromOpenFoodFacts 0 emptySession demoBatch).2.rows.map ProductRow.barcode =
      ["1001", "1002", "1004", "1005"]) ∧
    (∀ (now : Int) (s : Session) (c : SeedCounts) (r : SeedRaw),
      truthy r.code = false ∨ truthy r.product_name = false →
      seedStep now (s, c) r = (s, { c with skipped := c.skipped + 1 })) ∧
    (∀ (now : Int) (s : Session) (c : SeedCounts) (r : SeedRaw) (e : String),
      truthy r.code = true → truthy r.product_name = true →
      r.parsed = Except.error e →
      seedStep now (s, c) r = (s, { c with errors := c.errors + 1 })) := by
  refine ⟨rfl, rfl, ?_, ?_⟩
  · intro now s c r h
    rcases h with h | h <;> simp [seedStep, h]
  · intro now s c r e hc hn hp
    rcases hdb : getFromDatabase s (r.code.getD "") with _ | existing <;>
      simp [seedStep, hc, hn, hp, hdb]

/-- C7 counterexample: seeding two well-formed records into an empty
database performs three commits — one inside `_add_product` for each
record and one more at the end of the loop — not a single batch commit. -/
theorem seed_not_single_commit :
    ((seedFromOpenFoodFacts 0 emptySession
        [seedRec "1001", seedRec "1002"]).2.commits = 3) ∧
    ¬ ((seedFromOpenFoodFacts 0 emptySession
        [seedRec "1001", seedRec "1002"]).2.commits = 1) := by
  exact ⟨rfl, by decide⟩

/-- Each iteration of the seeding loop commits once when it writes (the
commit inside `_add_product` / `_update_product`) and otherwise leaves
the session untouched. -/
theorem seedStep_commits (now : Int) (st : Session × SeedCounts) (r : SeedRaw) :
    (seedStep now st r).1.commits + st.2.added + st.2.updated =
      st.1.commits + (seedStep now st r).2.added + (seedStep now st r).2.updated := by
  obtain ⟨s, c⟩ := st
  unfold seedStep
  dsimp only
  split
  · dsimp only
  · split <;> split <;>
      dsimp only [updateProduct, addProduct, commitDb] <;> try omega

/-- Over the whole loop, the session's commit counter grows by exactly
the number of written (added or updated) records. -/
theorem seedLoop_commits (now : Int) (records : List SeedRaw) :
    ∀ st : Session × SeedCounts,
      (records.foldl (seedStep now) st).1.commits + st.2.added + st.2.updated =
        st.1.commits + (records.foldl (seedStep now) st).2.added +
          (records.foldl (seedStep now) st).2.updated := by
  induction records with
  | nil => intro st; simp
  | cons r rs ih =>
    intro st
    simp only [List.foldl_cons]
    have h1 := ih (seedStep now st r)
    have h2 := seedStep_commits now st r
    omega

/-- C7 (amended): a seed call performs one commit per successful write
plus a final one — `commits = added + updated + 1` — instead of a single
batch commit; an erroring record leaves the session exactly as it was,
so previously committed records of the same call are not rolled back. -/
theorem seed_commit_policy (now : Int) (s : Session) (records : List SeedRaw) :
    ((seedFromOpenFoodFacts now s records).2.commits =
      s.commits + ((seedFromOpenFoodFacts now s records).1.added +
        (seedFromOpenFoodFacts now s records).1.updated) + 1) ∧
    (∀ (s' : Session) (c : SeedCounts) (r : SeedRaw) (e : String),
      truthy r.code = true → truthy r.product_name = true →
      r.parsed = Except.error e →
      (seedStep now (s', c) r).1 = s') := by
  constructor
  · have h := seedLoop_commits now records
      (s, { added := 0, updated := 0, skipped := 0, errors := 0 })
    unfold seedFromOpenFoodFacts
    dsimp only [commitDb]
    dsimp only at h
    omega
  · intro s' c r e hc hn hp
    rcases hdb : getFromDatabase s' (r.code.getD "") with _ | existing <;>
      simp [seedStep, hc, hn, hp, hdb]

/-- C4: refreshing a barcode for which a row is stored updates that row
in place: same primary key, the row list only has that row rewritten (no
insertion), every field set in the payload overwrites the stored column,
every unset field keeps its stored value, and the nutrition sub-row is
merged field-by-field when the row already has one and created when it
does not. -/
theorem updateProduct_in_place (now : Int) (s : Session) (p : ProductCreate)
    (existing : ProductRow)
    (h : getFromDatabase s p.barcode = some existing) :
    (createOrUpdateProduct now s p).1.id = existing.id ∧
    (createOrUpdateProduct now s p).2.rows =
      s.rows.map (fun r => if r.id = existing.id
        then (createOrUpdateProduct now s p).1 else r) ∧
    (∀ f x, p.pset f = some x → (createOrUpdateProduct now s p).1.fields f = x) ∧
    (∀ f, p.pset f = none →
      (createOrUpdateProduct now s p).1.fields f = existing.fields f) ∧
    (p.normalized_nutrition = none →
      (createOrUpdateProduct now s p).1.nutrition = existing.nutrition) ∧
    (∀ np n, p.normalized_nutrition = some np → existing.nutrition = some n →
      (createOrUpdateProduct now s p).1.nutrition =
        some { n with nfields := mergeNFields n.nfields np }) ∧
    (∀ np, p.normalized_nutrition = some np → existing.nutrition = none →
      (createOrUpdateProduct now s p).1.nutrition =
        some { id := s.nextNutId, product_id := existing.id,
               nfields := nutFullDict np }) := by
  simp only [createOrUpdateProduct, h]
  refine ⟨rfl, rfl, ?_, ?_, ?_, ?_, ?_⟩
  · intro f x hx
    simp [updateProduct, updateRow, mergeFields, hx]
  · intro f hx
    simp [updateProduct, updateRow, mergeFields, hx]
  · intro hn
    simp [updateProduct, updateRow, hn]
  · intro np n hnp hex
    simp [updateProduct, updateRow, hnp, hex]
  · intro np hnp hex
    simp [updateProduct, updateRow, hnp, hex]

/-- C4 applied to a concrete session: refreshing barcode `"111"` keeps
the stored row's primary key. -/
theorem updateProduct_in_place_witness :
    (createOrUpdateProduct 5 freshSession demoCreate).1.id = freshRow.id :=
  (updateProduct_in_place 5 freshSession demoCreate freshRow rfl).1

/-- Merging the same payload twice changes nothing the second time. -/
theorem mergeFields_idem (old : PField → Option String)
    (p : PField → Option (Option String)) :
    mergeFields (mergeFields old p) p = mergeFields old p := by
  funext f
  unfold mergeFields
  cases p f <;> rfl

/-- Merging a payload into the row built from its own full dict changes
nothing. -/
theorem mergeFields_fullDict (p : PField → Option (Option String)) :
    mergeFields (fullDict p) p = fullDict p := by
  funext f
  unfold mergeFields fullDict
  cases p f <;> rfl

/-- Nutrition analogue of `mergeFields_idem`. -/
theorem mergeNFields_idem (old : NField → Option String) (np : NutritionPayload) :
    mergeNFields (mergeNFields old np) np = mergeNFields old np := by
  funext f
  unfold mergeNFields
  cases np.nset f <;> rfl

/-- Nutrition analogue of `mergeFields_fullDict`. -/
theorem mergeNFields_fullDict (np : NutritionPayload) :
    mergeNFields (nutFullDict np) np = nutFullDict np := by
  funext f
  unfold mergeNFields nutFullDict
  cases np.nset f <;> rfl

/-- Replacing, by primary key, the row that a barcode lookup found with a
row carrying the same barcode makes the lookup find the replacement
(primary keys assumed unique, as the database guarantees). -/
theorem find?_update_row (b : String) (existing row1 : ProductRow)
    (hbar : row1.barcode = b) :
    ∀ rows : List ProductRow,
      rows.find? (fun r => r.barcode == b) = some existing →
      (rows.map ProductRow.id).Nodup →
      (rows.map (fun r => if r.id = existing.id then row1 else r)).find?
        (fun r => r.barcode == b) = some row1 := by
  intro rows
  induction rows with
  | nil => intro hfind _; simp at hfind
  | cons r0 rs ih =>
    intro hfind hnodup
    simp only [List.map_cons, List.nodup_cons] at hnodup ⊢
    by_cases h0 : (r0.barcode == b) = true
    · rw [@List.find?_cons_of_pos _ (fun r => r.barcode == b) r0 rs h0] at hfind
      injection hfind with he
      subst he
      rw [if_pos rfl]
      exact @List.find?_cons_of_pos _ (fun r => r.barcode == b) row1 _
        (by show (row1.barcode == b) = true; rw [hbar]; exact beq_self_eq_true b)
    · rw [@List.find?_cons_of_neg _ (fun r => r.barcode == b) r0 rs h0] at hfind
      have hmem : existing ∈ rs := List.mem_of_find?_eq_some hfind
      have hne : ¬ (r0.id = existing.id) := fun he =>
        hnodup.1 (he ▸ List.mem_map_of_mem ProductRow.id hmem)
      rw [if_neg hne, @List.find?_cons_of_neg _ (fun r => r.barcode == b) r0 _ h0]
      exact ih hfind hnodup.2

/-- Updating a row with a payload that was already merged into it only
moves `last_updated`. -/
theorem updateRow_self (now2 : Int) (row1 : ProductRow) (p : ProductCreate)
    (k : Nat) (hbar : row1.barcode = p.barcode)
    (hfields : mergeFields row1.fields p.pset = row1.fields)
    (hnut : ∀ np, p.normalized_nutrition = some np →
      ∃ n1, row1.nutrition = some n1 ∧ mergeNFields n1.nfields np = n1.nfields) :
    updateRow now2 row1 p k = { row1 with last_updated := some now2 } := by
  unfold updateRow
  rcases hp : p.normalized_nutrition with _ | np
  · cases row1 with
    | mk i b fl lu nut => simp_all
  · obtain ⟨n1, hn1, hm⟩ := hnut np hp
    cases row1 with
    | mk i b fl lu nut =>
      dsimp only at hn1 ⊢
      subst hn1
      cases n1 with
      | mk ni npid nf => simp_all

/-- The central upsert fact behind C5: running `_create_or_update_product`
twice with the same parsed payload leaves the second resulting row equal
to the first except for `last_updated` (primary keys assumed unique). -/
theorem createOrUpdate_twice (now1 now2 : Int) (s : Session) (p : ProductCreate)
    (hnodup : (s.rows.map ProductRow.id).Nodup) :
    (createOrUpdateProduct now2 (createOrUpdateProduct now1 s p).2 p).1 =
      { (createOrUpdateProduct now1 s p).1 with last_updated := some now2 } := by
  rcases h : getFromDatabase s p.barcode with _ | existing
  · -- first call inserts
    have hfind2 : getFromDatabase (addProduct now1 s p).2 p.barcode =
        some (addProduct now1 s p).1 := by
      unfold getFromDatabase addProduct commitDb
      unfold getFromDatabase at h
      dsimp only
      rw [List.find?_append, h]
      simp
    simp only [createOrUpdateProduct, h, hfind2]
    apply updateRow_self
    · rfl
    · exact mergeFields_fullDict p.pset
    · intro np hp
      refine ⟨{ id := s.nextNutId, product_id := s.nextId,
                nfields := nutFullDict np }, ?_, mergeNFields_fullDict np⟩
      show (addProduct now1 s p).1.nutrition = _
      unfold addProduct
      dsimp only
      rw [hp]
      rfl
  · -- first call updates in place
    have hrow1bar : (updateRow now1 existing p s.nextNutId).barcode = p.barcode := rfl
    have hfind2 : getFromDatabase (updateProduct now1 s existing p).2 p.barcode =
        some (updateProduct now1 s existing p).1 := by
      unfold getFromDatabase updateProduct commitDb
      unfold getFromDatabase at h
      dsimp only
      exact find?_update_row p.barcode existing _ hrow1bar s.rows h hnodup
    simp only [createOrUpdateProduct, h, hfind2]
    apply updateRow_self
    · rfl
    · exact mergeFields_idem existing.fields p.pset
    · intro np hp
      show ∃ n1, (updateRow now1 existing p s.nextNutId).nutrition = some n1 ∧
        mergeNFields n1.nfields np = n1.nfields
      unfold updateRow
      dsimp only
      rw [hp]
      rcases existing.nutrition with _ | n
      · exact ⟨_, rfl, mergeNFields_fullDict np⟩
      · exact ⟨_, rfl, mergeNFields_idem n.nfields np⟩

/-- C5 (amended): calling `get_by_barcode(barcode, force_refresh=true)`
twice with identical external data is idempotent on the stored record in
every column but one: the second call returns the first call's row — same
primary key, same barcode, fields and nutrition sub-row — with only
`last_updated` rewritten to the second call's time, which the column's
`onupdate` hook bumps on every refresh. -/
theorem forcedRefresh_idempotent {Raw : Type} (now1 now2 ttl : Int)
    (client : String → Option Raw) (parse : Raw → ProductCreate)
    (s : Session) (barcode : String) (raw : Raw)
    (hnodup : (s.rows.map ProductRow.id).Nodup)
    (hclient : client barcode = some raw) :
    (getByBarcode now2 ttl client parse
        (getByBarcode now1 ttl client parse s barcode true).session
        barcode true).resp =
      (getByBarcode now1 ttl client parse s barcode true).resp.map
        (fun row => { row with last_updated := some now2 }) := by
  unfold getByBarcode
  simp only [hclient, Bool.not_true, Bool.false_eq_true, if_false]
  rw [createOrUpdate_twice now1 now2 s (parse raw) hnodup]
  rfl

/-- C5's amended statement on a concrete run: two forced refreshes of
barcode `"111"` into an empty database, at times `0` and `1`, agree up to
`last_updated`. -/
theorem forcedRefresh_idempotent_witness :
    (getByBarcode 1 30 (fun _ : String => some ()) (fun _ => demoCreate)
        (getByBarcode 0 30 (fun _ : String => some ()) (fun _ => demoCreate)
          emptySession "111" true).session "111" true).resp =
      (getByBarcode 0 30 (fun _ : String => some ()) (fun _ => demoCreate)
        emptySession "111" true).resp.map
        (fun row => { row with last_updated := some (1 : Int) }) :=
  forcedRefresh_idempotent 0 1 30 (fun _ => some ()) (fun _ => demoCreate)
    emptySession "111" () (by simp [emptySession]) rfl

/-- C5 counterexample: after the same two forced refreshes, the stored
row's `last_updated` is `0` after the first call and `1` after the
second, so not every field value is preserved between the calls. -/
theorem forcedRefresh_changes_lastUpdated :
    ((getByBarcode 0 30 (fun _ : String => some ()) (fun _ => demoCreate)
        emptySession "111" true).resp.map ProductRow.last_updated =
      some (some 0)) ∧
    ((getByBarcode 1 30 (fun _ : String => some ()) (fun _ => demoCreate)
        (getByBarcode 0 30 (fun _ : String => some ()) (fun _ => demoCreate)
          emptySession "111" true).session "111" true).resp.map
        ProductRow.last_updated = some (some 1)) ∧
    ¬ (some (some (1 : Int)) = some (some (0 : Int))) := by
  refine ⟨rfl, rfl, by decide⟩

end PickBetter
